import Mathlib

/-!
Shallow embedding of the FLIP/PIC water simulation core (`src/FluidSim.ts`)
and proofs about it.

Modelling conventions:
* JavaScript numbers are modelled as exact rationals (`ℚ`); the float arrays
  (`Float32Array`) become total functions `ℤ → ℚ` that are `0` outside the
  touched range, and `Int8Array` becomes `ℤ → ℤ`.  Decimal literals of the
  source (`1.1`, `0.85`, `0.95`, ...) are written as the exact fractions they
  denote.
* `Math.sin` and `Math.sqrt` are transcendental on `ℚ`, so they are passed to
  the embedded operations as explicit function parameters (`sinFn`, `sq`);
  `Math.random` of the particle seeding becomes a parameter `rand : ℕ → ℚ`
  giving the successive draws.
* The cell-type constants are the source's: FLUID = 0, AIR = 1, SOLID = 2.
-/

namespace WaterSim

/-- One marker particle: position `(x, y)` and velocity `(u, v)`
(class `Particle` of the source). -/
structure Particle where
  x : ℚ
  y : ℚ
  u : ℚ
  v : ℚ
deriving DecidableEq, Inhabited, Repr

/-- The simulation state: the fields of class `FluidSim` that the verified
operations read or write.  `u`/`v` are the staggered face-velocity arrays of
sizes `(fNumX+1)*fNumY` and `fNumX*(fNumY+1)`, `du`/`dv` the pre-solve
snapshot, `uWeight`/`vWeight` the splat weight accumulators, `pDensity` the
per-cell density and `cellType` the per-cell classification. -/
structure FluidSim where
  fNumX : ℕ
  fNumY : ℕ
  h : ℚ
  gravity : ℚ
  overRelaxation : ℚ
  u : ℤ → ℚ
  v : ℤ → ℚ
  du : ℤ → ℚ
  dv : ℤ → ℚ
  uWeight : ℤ → ℚ
  vWeight : ℤ → ℚ
  pDensity : ℤ → ℚ
  cellType : ℤ → ℤ
  particles : List Particle
  totalTime : ℚ

/-- `grid[k] += d` on an array modelled as a total function. -/
def bump (f : ℤ → ℚ) (k : ℤ) (d : ℚ) : ℤ → ℚ :=
  fun n => if n = k then f n + d else f n

/-- `grid[k] = q` on an array modelled as a total function. -/
def setQ (f : ℤ → ℚ) (k : ℤ) (q : ℚ) : ℤ → ℚ :=
  fun n => if n = k then q else f n

/-- Integer-array store (for the spatial-hash arrays). -/
def setI (f : ℤ → ℤ) (k : ℤ) (q : ℤ) : ℤ → ℤ :=
  fun n => if n = k then q else f n

/-- The clamped grid coordinate `max(0, min(x/h - off, n - 2))` that opens
`splatToGrid`, `splatToScalarGrid` and `sampleGrid` in the source. -/
def gridCoord (h x off : ℚ) (n : ℕ) : ℚ :=
  max 0 (min (x / h - off) ((n : ℚ) - 2))

/-- `FluidSim.splatToGrid`: bilinearly scatter value `val` carried at world
position `(x, y)` onto the four stencil entries of `grid`, accumulating the
bilinear weights into `weight`.  (The source's `isNaN` guard has no analogue
on `ℚ`.) -/
def splatToGrid (h x y val : ℚ) (grid weight : ℤ → ℚ) (ox oy : ℚ)
    (cols rows : ℕ) : (ℤ → ℚ) × (ℤ → ℚ) :=
  let gx := gridCoord h x ox cols
  let gy := gridCoord h y oy rows
  let ix : ℤ := ⌊gx⌋
  let iy : ℤ := ⌊gy⌋
  let fx := gx - ix
  let fy := gy - iy
  let w00 := (1 - fx) * (1 - fy)
  let w10 := fx * (1 - fy)
  let w01 := (1 - fx) * fy
  let w11 := fx * fy
  let idx := ix + iy * (cols : ℤ)
  (bump (bump (bump (bump grid idx (val * w00)) (idx + 1) (val * w10))
      (idx + cols) (val * w01)) (idx + cols + 1) (val * w11),
   bump (bump (bump (bump weight idx w00) (idx + 1) w10)
      (idx + cols) w01) (idx + cols + 1) w11)

/-- `FluidSim.splatToScalarGrid`: same scatter without weight accumulation
(used for the density field, with unit mass). -/
def splatToScalarGrid (h x y val : ℚ) (grid : ℤ → ℚ) (ox oy : ℚ)
    (cols rows : ℕ) : ℤ → ℚ :=
  let gx := gridCoord h x ox cols
  let gy := gridCoord h y oy rows
  let ix : ℤ := ⌊gx⌋
  let iy : ℤ := ⌊gy⌋
  let fx := gx - ix
  let fy := gy - iy
  let idx := ix + iy * (cols : ℤ)
  bump (bump (bump (bump grid idx (val * ((1 - fx) * (1 - fy))))
      (idx + 1) (val * (fx * (1 - fy))))
      (idx + cols) (val * ((1 - fx) * fy))) (idx + cols + 1) (val * (fx * fy))

/-- `FluidSim.sampleGrid`: bilinear interpolation of `grid` at world position
`(x, y)` with the same clamped coordinates as the splats. -/
def sampleGrid (h x y : ℚ) (grid : ℤ → ℚ) (ox oy : ℚ)
    (cols rows : ℕ) : ℚ :=
  let gx := gridCoord h x ox cols
  let gy := gridCoord h y oy rows
  let ix : ℤ := ⌊gx⌋
  let iy : ℤ := ⌊gy⌋
  let fx := gx - ix
  let fy := gy - iy
  let idx := ix + iy * (cols : ℤ)
  grid idx * (1 - fx) * (1 - fy) + grid (idx + 1) * fx * (1 - fy) +
    grid (idx + cols) * (1 - fx) * fy + grid (idx + cols + 1) * fx * fy

/-- The `fill(0)` calls opening `transferParticlesToGrid`. -/
def clearGrids (s : FluidSim) : FluidSim :=
  { s with u := fun _ => 0, v := fun _ => 0,
           uWeight := fun _ => 0, vWeight := fun _ => 0 }

/-- One iteration of the splat loop of `transferParticlesToGrid`: splat the
particle's `u` onto the `u`-face array (offsets `(0, 0.5)`, `(fNumX+1) × fNumY`)
and its `v` onto the `v`-face array (offsets `(0.5, 0)`, `fNumX × (fNumY+1)`). -/
def splatParticle (s : FluidSim) (p : Particle) : FluidSim :=
  let ru := splatToGrid s.h p.x p.y p.u s.u s.uWeight 0 (1/2) (s.fNumX + 1) s.fNumY
  let rv := splatToGrid s.h p.x p.y p.v s.v s.vWeight (1/2) 0 s.fNumX (s.fNumY + 1)
  { s with u := ru.1, uWeight := ru.2, v := rv.1, vWeight := rv.2 }

/-- The whole particle loop of `transferParticlesToGrid`. -/
def splatAll (s : FluidSim) : FluidSim :=
  s.particles.foldl splatParticle s

/-- The weight-normalization loops of `transferParticlesToGrid`:
`if (weight[i] > 0) value[i] /= weight[i]`.  (The source iterates over the
allocated index range; the splats only ever write inside that range, and
entries with zero weight are left unchanged either way, so the pointwise
formulation coincides with the source loop.) -/
def normalizeGrids (s : FluidSim) : FluidSim :=
  { s with
    u := fun k => if 0 < s.uWeight k then s.u k / s.uWeight k else s.u k,
    v := fun k => if 0 < s.vWeight k then s.v k / s.vWeight k else s.v k }

/-- Row-major enumeration of all cells `(i, j)`, `j` outer, as in
`enforceBoundaries`. -/
def cellPairs (m n : ℕ) : List (ℕ × ℕ) :=
  (List.range n).flatMap (fun j => (List.range m).map (fun i => (i, j)))

/-- The face updates of `enforceBoundaries` for one cell: if it is SOLID,
zero its four incident faces, else leave `u`, `v` unchanged. -/
def enforceCellUV (s : FluidSim) (ij : ℕ × ℕ) : (ℤ → ℚ) × (ℤ → ℚ) :=
  let i : ℤ := ij.1
  let j : ℤ := ij.2
  let m : ℤ := s.fNumX
  if s.cellType (i + j * m) = 2 then
    (setQ (setQ s.u (i + j * (m + 1)) 0) (i + 1 + j * (m + 1)) 0,
     setQ (setQ s.v (i + j * m) 0) (i + (j + 1) * m) 0)
  else (s.u, s.v)

/-- The body of `enforceBoundaries` for one cell. -/
def enforceCell (s : FluidSim) (ij : ℕ × ℕ) : FluidSim :=
  { s with u := (enforceCellUV s ij).1, v := (enforceCellUV s ij).2 }

/-- `FluidSim.enforceBoundaries`. -/
def enforceBoundaries (s : FluidSim) : FluidSim :=
  (cellPairs s.fNumX s.fNumY).foldl enforceCell s

/-- `FluidSim.transferParticlesToGrid`: clear, splat every particle,
normalize by the accumulated weights, then force solid faces to zero. -/
def transferParticlesToGrid (s : FluidSim) : FluidSim :=
  enforceBoundaries (normalizeGrids (splatAll (clearGrids s)))

/-- `FluidSim.calculateParticleDensity`: rebuild `pDensity` by splatting unit
mass per particle at cell centers (offsets `(0.5, 0.5)`). -/
def calculateParticleDensity (s : FluidSim) : FluidSim :=
  { s with pDensity :=
      (s.particles.foldl
        (fun g p => splatToScalarGrid s.h p.x p.y 1 g (1/2) (1/2) s.fNumX s.fNumY)
        (fun _ => 0)) }

/-- Interior cells `(i, j)`, `1 ≤ i ≤ fNumX-2`, `1 ≤ j ≤ fNumY-2`, `j` outer,
as enumerated by the sweep loops of `solveIncompressibility`. -/
def interiorCells (m n : ℕ) : List (ℕ × ℕ) :=
  (List.range' 1 (n - 2)).flatMap (fun j => (List.range' 1 (m - 2)).map (fun i => (i, j)))

/-- The body of the relaxation sweep of `solveIncompressibility` for one
interior cell, exactly as in the source: skip solid cells; divergence with the
density correction (`restDensity = 2.5`, `kDensity = 1.0`); skip below the
`1e-5` epsilon; skip when all four neighbors are solid; otherwise distribute
`flux = -(div * overRelaxation) / sTot` onto the non-solid-gated faces. -/
def relaxCellUV (s : FluidSim) (ij : ℕ × ℕ) : (ℤ → ℚ) × (ℤ → ℚ) :=
  let i : ℤ := ij.1
  let j : ℤ := ij.2
  let m : ℤ := s.fNumX
  let cellIdx := i + j * m
  if s.cellType cellIdx = 2 then (s.u, s.v)
  else
    let idxU := i + j * (m + 1)
    let idxV := i + j * m
    let div0 := s.u (idxU + 1) - s.u idxU + (s.v (idxV + m) - s.v idxV)
    let density := s.pDensity cellIdx
    let targetDiv := if 5/2 < density then 1 * (density - 5/2) else 0
    let div := div0 - targetDiv
    if |div| < 1/100000 then (s.u, s.v)
    else
      let sLeft : ℚ := if s.cellType (i - 1 + j * m) = 2 then 0 else 1
      let sRight : ℚ := if s.cellType (i + 1 + j * m) = 2 then 0 else 1
      let sBot : ℚ := if s.cellType (i + (j - 1) * m) = 2 then 0 else 1
      let sTop : ℚ := if s.cellType (i + (j + 1) * m) = 2 then 0 else 1
      let sTot := sLeft + sRight + sBot + sTop
      if sTot = 0 then (s.u, s.v)
      else
        let flux := -(div * s.overRelaxation) / sTot
        let u1 := if sLeft ≠ 0 then bump s.u idxU (-flux) else s.u
        let u2 := if sRight ≠ 0 then bump u1 (idxU + 1) flux else u1
        let v1 := if sBot ≠ 0 then bump s.v idxV (-flux) else s.v
        let v2 := if sTop ≠ 0 then bump v1 (idxV + m) flux else v1
        (u2, v2)

/-- One interior cell of the relaxation sweep, as a state update: only the
two face arrays change. -/
def relaxCell (s : FluidSim) (ij : ℕ × ℕ) : FluidSim :=
  { s with u := (relaxCellUV s ij).1, v := (relaxCellUV s ij).2 }

/-- One full Gauss–Seidel sweep over the interior cells. -/
def sweep (s : FluidSim) : FluidSim :=
  (interiorCells s.fNumX s.fNumY).foldl relaxCell s

/-- `FluidSim.solveIncompressibility`: 30 sweeps (`numIters = 30`). -/
def solveIncompressibility (s : FluidSim) : FluidSim :=
  (List.range 30).foldl (fun st _ => sweep st) s

/-- `FluidSim.transferGridToParticles`: the FLIP/PIC blend.  For each particle
sample the post-solve grids (`u`, `v`) and the pre-solve snapshot (`du`, `dv`)
and blend `flipRatio` toward FLIP, the rest toward PIC. -/
def transferGridToParticles (fr : ℚ) (s : FluidSim) : FluidSim :=
  { s with particles := s.particles.map (fun p =>
      let uPIC := sampleGrid s.h p.x p.y s.u 0 (1/2) (s.fNumX + 1) s.fNumY
      let vPIC := sampleGrid s.h p.x p.y s.v (1/2) 0 s.fNumX (s.fNumY + 1)
      let uOld := sampleGrid s.h p.x p.y s.du 0 (1/2) (s.fNumX + 1) s.fNumY
      let vOld := sampleGrid s.h p.x p.y s.dv (1/2) 0 s.fNumX (s.fNumY + 1)
      let uFLIP := p.u + (uPIC - uOld)
      let vFLIP := p.v + (vPIC - vOld)
      { x := p.x, y := p.y,
        u := uFLIP * fr + uPIC * (1 - fr),
        v := vFLIP * fr + vPIC * (1 - fr) }) }

/-- The hash cell a particle is filed under in `separateParticles`
(indices clamped into the grid). -/
def hashCellOf (s : FluidSim) (p : Particle) : ℤ :=
  let invH := 1 / s.h
  let cx := max 0 (min ((s.fNumX : ℤ) - 1) ⌊p.x * invH⌋)
  let cy := max 0 (min ((s.fNumY : ℤ) - 1) ⌊p.y * invH⌋)
  cx + cy * (s.fNumX : ℤ)

/-- The spatial-hash build of `separateParticles`: bucket heads (`-1` = none)
and per-particle next pointers, filled by pushing each particle onto its
bucket's chain. -/
def buildHash (s : FluidSim) : (ℤ → ℤ) × (ℤ → ℤ) :=
  (List.range s.particles.length).foldl
    (fun acc i =>
      let p := s.particles.getD i default
      let cIdx := hashCellOf s p
      (setI acc.1 cIdx (i : ℤ), setI acc.2 (i : ℤ) (acc.1 cIdx)))
    (fun _ => -1, fun _ => -1)

/-- The innermost loop of `separateParticles`: walk one bucket chain for
particle `i`, applying the symmetric softened separation (`force =
overlap * 0.5`) to every other particle within the radius; pairs at
near-zero distance (`distSq ≤ 1e-6`) are skipped.  `sq` models `Math.sqrt`.
The fuel is one more than the particle count, which bounds every chain. -/
def walkChain (sq : ℚ → ℚ) (radius : ℚ) (np : ℤ → ℤ) (i : ℕ) :
    ℕ → ℤ → List Particle → List Particle
  | 0, _, ps => ps
  | fuel + 1, nIdx, ps =>
    if nIdx = -1 then ps
    else
      let ps2 :=
        if nIdx = (i : ℤ) then ps
        else
          let p := ps.getD i default
          let pn := ps.getD nIdx.toNat default
          let dx := p.x - pn.x
          let dy := p.y - pn.y
          let distSq := dx * dx + dy * dy
          if distSq < radius * radius ∧ 1/1000000 < distSq then
            let dist := sq distSq
            let force := (radius - dist) * (1/2)
            let fx := dx / dist * force
            let fy := dy / dist * force
            (ps.set i ⟨p.x + fx, p.y + fy, p.u, p.v⟩).set nIdx.toNat
              ⟨pn.x - fx, pn.y - fy, pn.u, pn.v⟩
          else ps
      walkChain sq radius np i fuel (np nIdx) ps2

/-- One iteration of the collision-resolution loop of `separateParticles` for
particle `i`: scan the 3×3 neighboring buckets (with grid bounds checks) of
the cell containing the particle's current position. -/
def resolveOne (sq : ℚ → ℚ) (radius invH : ℚ) (m n : ℕ) (fh np : ℤ → ℤ)
    (ps : List Particle) (i : ℕ) : List Particle :=
  let p := ps.getD i default
  let cx : ℤ := ⌊p.x * invH⌋
  let cy : ℤ := ⌊p.y * invH⌋
  [cx - 1, cx, cx + 1].foldl
    (fun ps1 nx =>
      [cy - 1, cy, cy + 1].foldl
        (fun ps2 ny =>
          if nx < 0 ∨ (m : ℤ) ≤ nx ∨ ny < 0 ∨ (n : ℤ) ≤ ny then ps2
          else walkChain sq radius np i (ps2.length + 1) (fh (nx + ny * (m : ℤ))) ps2)
        ps1)
    ps

/-- `FluidSim.separateParticles`: build the hash from the current positions,
then one pass (`iter < 1`) of pairwise separation with radius `h`. -/
def separateParticles (sq : ℚ → ℚ) (s : FluidSim) : FluidSim :=
  let fhnp := buildHash s
  let radius := s.h
  let invH := 1 / s.h
  { s with particles :=
      ((List.range s.particles.length).foldl
        (fun ps i => resolveOne sq radius invH s.fNumX s.fNumY fhnp.1 fhnp.2 ps i)
        s.particles) }

/-- The wall clamp of `advectParticles`, in the source's order: left wall,
right wall, floor, ceiling, zeroing the corresponding velocity component. -/
def clampParticle (width height buffer : ℚ) (p : Particle) : Particle :=
  let x1 := if p.x < buffer then buffer else p.x
  let u1 := if p.x < buffer then 0 else p.u
  let x2 := if x1 > width - buffer then width - buffer else x1
  let u2 := if x1 > width - buffer then 0 else u1
  let y1 := if p.y > height - buffer then height - buffer else p.y
  let v1 := if p.y > height - buffer then 0 else p.v
  let y2 := if y1 < buffer then buffer else y1
  let v2 := if y1 < buffer then 0 else v1
  ⟨x2, y2, u2, v2⟩

/-- `FluidSim.advectParticles`: gravity + position integration (the new `v`
feeds the `y` update), one separation pass, then the wall clamp with
`buffer = 1.1 h` against the `fNumX h × fNumY h` domain. -/
def advectParticles (sq : ℚ → ℚ) (dt : ℚ) (s : FluidSim) : FluidSim :=
  let width := (s.fNumX : ℚ) * s.h
  let height := (s.fNumY : ℚ) * s.h
  let buffer := s.h * (11/10)
  let s1 := { s with particles := s.particles.map (fun p =>
      let v2 := p.v + s.gravity * dt
      ⟨p.x + p.u * dt, p.y + v2 * dt, p.u, v2⟩) }
  let s2 := separateParticles sq s1
  { s2 with particles := s2.particles.map (clampParticle width height buffer) }

/-- The wave-paddle forcing inside `integrate`: write
`400 * sin(totalTime * 1.0)` into the `u` faces at `i = 1` for
`1 ≤ j < 0.7 * fNumY`.  `sinFn` models `Math.sin`. -/
def applyWavePaddle (sinFn : ℚ → ℚ) (s : FluidSim) : FluidSim :=
  let uForce := 400 * sinFn (s.totalTime * 1)
  let count := (⌈(7/10 : ℚ) * (s.fNumY : ℚ)⌉ - 1).toNat
  { s with u := ((List.range' 1 count).foldl
      (fun f j => setQ f (1 + (j : ℤ) * ((s.fNumX : ℤ) + 1)) uForce) s.u) }

/-- The pre-solve snapshot `du.set(u); dv.set(v)` of `integrate`. -/
def snapshotGrid (s : FluidSim) : FluidSim :=
  { s with du := s.u, dv := s.v }

/-- `FluidSim.integrate(dt)`: the full sub-step in the source's order —
advance the wave clock, advect (gravity, move, separate, clamp), transfer
particles to the grid, rebuild density, apply the wave paddle, snapshot the
grid, pressure solve, and FLIP/PIC transfer back with `flipRatio = 0.95`. -/
def integrate (sinFn sq : ℚ → ℚ) (dt : ℚ) (s : FluidSim) : FluidSim :=
  transferGridToParticles (19/20)
    (solveIncompressibility
      (snapshotGrid
        (applyWavePaddle sinFn
          (calculateParticleDensity
            (transferParticlesToGrid
              (advectParticles sq dt { s with totalTime := s.totalTime + dt }))))))

/-- Cell classification of `initGrid`: the outer ring is SOLID, the interior
AIR, written cell by cell (`i` outer, `j` inner, as in the source). -/
def initGrid (s : FluidSim) : FluidSim :=
  ((List.range s.fNumX).flatMap (fun i => (List.range s.fNumY).map (fun j => (i, j)))).foldl
    (fun st ij =>
      let t : ℤ :=
        if ij.1 = 0 ∨ ij.1 = st.fNumX - 1 ∨ ij.2 = 0 ∨ ij.2 = st.fNumY - 1 then 2 else 1
      { st with cellType := setI st.cellType ((ij.1 : ℤ) + (ij.2 : ℤ) * st.fNumX) t })
    s

/-- Iteration count of a `for (x = a; x < b; x += step)` loop with positive
step: the number of naturals `k` with `a + k * step < b`. -/
def forCount (a b step : ℚ) : ℕ :=
  (⌈(b - a) / step⌉).toNat

/-- `FluidSim.initParticles`: seed a jittered block along the bottom of the
domain (fill fraction `0.4`, spacing `0.85 h`, jitter `(rand - 0.5) * 0.1 h`,
the same draw displacing both coordinates).  `rand k` models the `k`-th
`Math.random()` draw. -/
def initParticles (rand : ℕ → ℚ) (s : FluidSim) : FluidSim :=
  let startX := s.h * 2
  let width := ((s.fNumX : ℚ) - 4) * s.h
  let height := ((s.fNumY : ℚ) - 2) * s.h * (2/5)
  let maxH := ((s.fNumY : ℚ) - 1) * s.h
  let startY := maxH - height
  let particleSpacing := s.h * (17/20)
  let nx := forCount startX (startX + width) particleSpacing
  let ny := forCount startY maxH particleSpacing
  { s with particles :=
      ((List.range nx).flatMap (fun (kx : ℕ) =>
        (List.range ny).map (fun (ky : ℕ) =>
          let x := startX + (kx : ℚ) * particleSpacing
          let y := startY + (ky : ℚ) * particleSpacing
          let jitter := (rand ((kx * ny + ky : ℕ)) - 1/2) * (s.h * (1/10))
          (⟨x + jitter, y + jitter, 0, 0⟩ : Particle)))) }

/-- The constructor `new FluidSim(width, height, spacing)`.  It computes
`fNumX = ⌊width/spacing⌋ + 1`, `fNumY = ⌊height/spacing⌋ + 1` and allocates
the typed arrays; allocating a typed array of negative length throws a
`RangeError` in JavaScript, modelled as `none`.  The embedding covers runs
with `spacing > 0` (for `spacing ≤ 0` the source divides by zero or its
seeding loop never terminates). -/
def construct (rand : ℕ → ℚ) (width height spacing : ℚ) : Option FluidSim :=
  let fNumX : ℤ := ⌊width / spacing⌋ + 1
  let fNumY : ℤ := ⌊height / spacing⌋ + 1
  let uSize := (fNumX + 1) * fNumY
  let vSize := fNumX * (fNumY + 1)
  let cellSize := fNumX * fNumY
  if uSize < 0 ∨ vSize < 0 ∨ cellSize < 0 then none
  else some (initParticles rand (initGrid
    { fNumX := fNumX.toNat, fNumY := fNumY.toNat, h := spacing,
      gravity := 2500, overRelaxation := 19/10,
      u := fun _ => 0, v := fun _ => 0, du := fun _ => 0, dv := fun _ => 0,
      uWeight := fun _ => 0, vWeight := fun _ => 0, pDensity := fun _ => 0,
      cellType := fun _ => 0, particles := [], totalTime := 0 }))

/-- A zero float array, used by the concrete states below. -/
def zeroQ : ℤ → ℚ := fun _ => 0

/-- The solid-ring cell classification that `initGrid` produces on an
`m × n` grid, written as a flat-index function. -/
def ringCellType (m n : ℕ) : ℤ → ℤ :=
  fun k =>
    if 0 ≤ k ∧ k < (m : ℤ) * n ∧
        (k % m = 0 ∨ k % m = (m : ℤ) - 1 ∨ k / m = 0 ∨ k / m = (n : ℤ) - 1)
    then 2 else 1

/-- A concrete simulation state on an `m × n` grid with cell size `h = 1`,
a solid boundary ring, zeroed grids and the given particles. -/
def demoSim (m n : ℕ) (ps : List Particle) : FluidSim :=
  { fNumX := m, fNumY := n, h := 1, gravity := 2500, overRelaxation := 19/10,
    u := zeroQ, v := zeroQ, du := zeroQ, dv := zeroQ,
    uWeight := zeroQ, vWeight := zeroQ, pDensity := zeroQ,
    cellType := ringCellType m n, particles := ps, totalTime := 0 }

/-- The two particles of the separation scenario: `(0, 0)` and `(0, r/2)`
with `r = h = 1`. -/
def sepPs0 : List Particle := [⟨0, 0, 0, 0⟩, ⟨0, 1/2, 0, 0⟩]

/-- The separation scenario state. -/
def sepScenario : FluidSim := demoSim 4 4 sepPs0

/-- The particle list after the separation pass of the scenario. -/
def sepPs1 : List Particle := [⟨0, -(1/4), 0, 0⟩, ⟨0, 3/4, 0, 0⟩]

/-- Bucket heads of the scenario's spatial hash (both particles hash to
cell 0; particle 1 was pushed last, so it heads the chain). -/
def sepFH : ℤ → ℤ := setI (setI (fun _ => -1) 0 0) 0 1

/-- Next-pointers of the scenario's spatial hash. -/
def sepNP : ℤ → ℤ := setI (setI (fun _ => -1) 0 (-1)) 1 0

/-- Column index of the `u`-array bilinear stencil at a sample point: the
`ix` that `sampleGrid`/`splatToGrid` compute on the `u` grid (offsets
`(0, 0.5)`, `fNumX+1` columns). -/
def uIx (s : FluidSim) (x : ℚ) : ℤ := ⌊gridCoord s.h x 0 (s.fNumX + 1)⌋

/-- Row index of the `u`-array bilinear stencil at a sample point. -/
def uIy (s : FluidSim) (y : ℚ) : ℤ := ⌊gridCoord s.h y (1/2) s.fNumY⌋

/-- Flat base index of the `u`-array bilinear stencil at a sample point. -/
def uBase (s : FluidSim) (x y : ℚ) : ℤ :=
  uIx s x + uIy s y * ((s.fNumX + 1 : ℕ) : ℤ)

/-- One uniform-velocity particle on a 5 × 4 ring grid (the C5 witness
state): velocity `(3, 3)` at `(5/2, 7/4)`. -/
def uniSim : FluidSim := demoSim 5 4 [⟨5/2, 7/4, 3, 3⟩]

/-- Per-cell relaxation as §4.4 of the spec words it: divergence =
(rightFace − leftFace) + (topFace − bottomFace); subtract a target divergence
`max(0, density − restDensity) × correctionGain` (restDensity 2.5, gain 1);
skip the cell when the adjusted divergence is below the epsilon or the count
of non-solid neighbor cells is zero; otherwise add/subtract the single value
`flux = −(divergence × overRelaxation) / neighborCount` to the four incident
faces, each gated by that neighbor being non-solid. -/
def relaxCellSpecUV (s : FluidSim) (ij : ℕ × ℕ) : (ℤ → ℚ) × (ℤ → ℚ) :=
  let i : ℤ := ij.1
  let j : ℤ := ij.2
  let m : ℤ := s.fNumX
  let cellIdx := i + j * m
  if s.cellType cellIdx = 2 then (s.u, s.v)
  else
    let idxU := i + j * (m + 1)
    let idxV := i + j * m
    let div := (s.u (idxU + 1) - s.u idxU) + (s.v (idxV + m) - s.v idxV) -
      max 0 (s.pDensity cellIdx - 5/2) * 1
    if |div| < 1/100000 then (s.u, s.v)
    else
      let count : ℕ :=
        (if s.cellType (i - 1 + j * m) = 2 then 0 else 1) +
        (if s.cellType (i + 1 + j * m) = 2 then 0 else 1) +
        (if s.cellType (i + (j - 1) * m) = 2 then 0 else 1) +
        (if s.cellType (i + (j + 1) * m) = 2 then 0 else 1)
      if count = 0 then (s.u, s.v)
      else
        let flux := -(div * s.overRelaxation) / (count : ℚ)
        let u1 := if s.cellType (i - 1 + j * m) ≠ 2 then bump s.u idxU (-flux) else s.u
        let u2 := if s.cellType (i + 1 + j * m) ≠ 2 then bump u1 (idxU + 1) flux else u1
        let v1 := if s.cellType (i + (j - 1) * m) ≠ 2 then bump s.v idxV (-flux) else s.v
        let v2 := if s.cellType (i + (j + 1) * m) ≠ 2 then bump v1 (idxV + m) flux else v1
        (u2, v2)

/-- The spec-worded relaxation as a state update. -/
def relaxCellSpec (s : FluidSim) (ij : ℕ × ℕ) : FluidSim :=
  { s with u := (relaxCellSpecUV s ij).1, v := (relaxCellSpecUV s ij).2 }

/-- One sweep over the interior non-solid cells, spec wording. -/
def sweepSpec (s : FluidSim) : FluidSim :=
  (interiorCells s.fNumX s.fNumY).foldl relaxCellSpec s

/-- The pressure solve as the spec words it: the sweep repeated exactly 30
times. -/
def solveIncompressibilitySpec (s : FluidSim) : FluidSim :=
  sweepSpec^[30] s


end WaterSim

namespace WaterSim

/-! ### Generic fold lemmas -/

/-- Invariant preservation along `List.foldl`. -/
lemma foldl_induction {α β : Type _} (P : α → Prop) (f : α → β → α)
    (step : ∀ a b, P a → P (f a b)) :
    ∀ (l : List β) (a : α), P a → P (l.foldl f a) := by
  intro l
  induction l with
  | nil => intro a ha; exact ha
  | cons b t ih => intro a ha; exact ih (f a b) (step a b ha)

/-- Invariant preservation along `List.foldl`, with list membership available
at each step. -/
lemma foldl_induction_mem {α β : Type _} (P : α → Prop) (l : List β) (f : α → β → α)
    (step : ∀ a b, b ∈ l → P a → P (f a b)) :
    ∀ a, P a → P (l.foldl f a) := by
  induction l with
  | nil => intro a ha; exact ha
  | cons b t ih =>
    intro a ha
    exact ih (fun a c hc hP => step a c (List.mem_cons_of_mem b hc) hP) (f a b)
      (step a b (List.mem_cons_self b t) ha)

/-- A `for`-style fold that ignores the list elements is function iteration. -/
lemma foldl_range_iterate {α : Type _} (f : α → α) (n : ℕ) (a : α) :
    (List.range n).foldl (fun x _ => f x) a = f^[n] a := by
  induction n generalizing a with
  | zero => rfl
  | succ k ih =>
    rw [List.range_succ, List.foldl_append, ih]
    simp [Function.iterate_succ_apply']

/-- Membership in the row-major cell enumeration. -/
lemma mem_cellPairs {m n : ℕ} {p : ℕ × ℕ} :
    p ∈ cellPairs m n ↔ p.1 < m ∧ p.2 < n := by
  cases p with
  | mk a b =>
    simp only [cellPairs, List.mem_flatMap, List.mem_map, List.mem_range, Prod.mk.injEq]
    constructor
    · rintro ⟨j, hj, i, hi, e1, e2⟩
      subst e1; subst e2; exact ⟨hi, hj⟩
    · rintro ⟨h1, h2⟩
      exact ⟨b, h2, a, h1, rfl, rfl⟩

/-- Uniqueness of flat-index decomposition: with a row width `W` and two
in-row offsets, equal flat indices force equal coordinates. -/
lemma flatIndex_inj {W a b j k : ℤ} (hW : 0 < W) (ha0 : 0 ≤ a) (ha : a < W)
    (hb0 : 0 ≤ b) (hb : b < W) (h : a + j * W = b + k * W) : a = b ∧ j = k := by
  have hd : (k - j) * W = a - b := by ring_nf; linarith
  have hjk : k = j := by
    by_contra hne
    have h1 : 1 ≤ |k - j| := Int.one_le_abs (sub_ne_zero.mpr hne)
    have h2 : |(k - j) * W| = |k - j| * W := by
      rw [abs_mul, abs_of_pos hW]
    have h3 : |a - b| < W := abs_sub_lt_of_nonneg_of_lt ha0 ha hb0 hb
    have h4 : W ≤ |k - j| * W := le_mul_of_one_le_left (le_of_lt hW) h1
    rw [hd] at h2
    omega
  subst hjk
  constructor
  · have := hd; simp at this; linarith
  · rfl

/-! ### Field-preservation lemmas for the embedded operations -/

lemma relaxCell_particles (s : FluidSim) (ij : ℕ × ℕ) :
    (relaxCell s ij).particles = s.particles := rfl

lemma relaxCell_cellType (s : FluidSim) (ij : ℕ × ℕ) :
    (relaxCell s ij).cellType = s.cellType := rfl

lemma relaxCell_fNumX (s : FluidSim) (ij : ℕ × ℕ) :
    (relaxCell s ij).fNumX = s.fNumX := rfl

lemma relaxCell_fNumY (s : FluidSim) (ij : ℕ × ℕ) :
    (relaxCell s ij).fNumY = s.fNumY := rfl

lemma sweep_particles (s : FluidSim) : (sweep s).particles = s.particles := by
  unfold sweep
  exact foldl_induction (fun st => st.particles = s.particles)
    relaxCell (fun a b hp => show (relaxCell a b).particles = s.particles from hp)
    (interiorCells s.fNumX s.fNumY) s rfl

lemma solveIncompressibility_particles (s : FluidSim) :
    (solveIncompressibility s).particles = s.particles := by
  unfold solveIncompressibility
  exact foldl_induction (fun st => st.particles = s.particles)
    (fun st _ => sweep st)
    (fun a b hp => by
      show (sweep a).particles = s.particles
      rw [sweep_particles]; exact hp)
    (List.range 30) s rfl

lemma enforceCell_particles (s : FluidSim) (ij : ℕ × ℕ) :
    (enforceCell s ij).particles = s.particles := rfl

lemma enforceCell_cellType (s : FluidSim) (ij : ℕ × ℕ) :
    (enforceCell s ij).cellType = s.cellType := rfl

lemma enforceCell_fNumX (s : FluidSim) (ij : ℕ × ℕ) :
    (enforceCell s ij).fNumX = s.fNumX := rfl

lemma enforceBoundaries_particles (s : FluidSim) :
    (enforceBoundaries s).particles = s.particles := by
  unfold enforceBoundaries
  exact foldl_induction (fun st => st.particles = s.particles)
    enforceCell (fun a b hp => show (enforceCell a b).particles = s.particles from hp)
    (cellPairs s.fNumX s.fNumY) s rfl

lemma splatAll_particles (s : FluidSim) : (splatAll s).particles = s.particles := by
  unfold splatAll
  exact foldl_induction (fun st => st.particles = s.particles)
    splatParticle (fun a b hp => show (splatParticle a b).particles = s.particles from hp)
    s.particles s rfl

lemma transferParticlesToGrid_particles (s : FluidSim) :
    (transferParticlesToGrid s).particles = s.particles := by
  unfold transferParticlesToGrid
  rw [enforceBoundaries_particles]
  show (splatAll (clearGrids s)).particles = s.particles
  rw [splatAll_particles]
  rfl

lemma walkChain_length (sq : ℚ → ℚ) (radius : ℚ) (np : ℤ → ℤ) (i : ℕ) :
    ∀ (fuel : ℕ) (nIdx : ℤ) (ps : List Particle),
      (walkChain sq radius np i fuel nIdx ps).length = ps.length := by
  intro fuel
  induction fuel with
  | zero => intro nIdx ps; rfl
  | succ f ih =>
    intro nIdx ps
    simp only [walkChain]
    split_ifs <;> simp [ih, List.length_set]

lemma resolveOne_length (sq : ℚ → ℚ) (radius invH : ℚ) (m n : ℕ)
    (fh np : ℤ → ℤ) (ps : List Particle) (i : ℕ) :
    (resolveOne sq radius invH m n fh np ps i).length = ps.length := by
  unfold resolveOne
  refine foldl_induction (fun l => l.length = ps.length) _
    (fun l1 nx h1 => foldl_induction (fun l => l.length = ps.length) _
      (fun l2 ny h2 => ?_) _ l1 h1) _ ps rfl
  show (if _ ∨ _ ∨ _ ∨ _ then l2
      else walkChain sq radius np i (l2.length + 1) (fh (nx + ny * (m : ℤ))) l2).length =
    ps.length
  split_ifs with hb
  · exact h2
  · rw [walkChain_length]; exact h2

lemma separateParticles_length (sq : ℚ → ℚ) (s : FluidSim) :
    (separateParticles sq s).particles.length = s.particles.length := by
  show ((List.range s.particles.length).foldl
      (fun ps i => resolveOne sq s.h (1 / s.h) s.fNumX s.fNumY
        (buildHash s).1 (buildHash s).2 ps i)
      s.particles).length = s.particles.length
  exact foldl_induction (fun l => l.length = s.particles.length)
    _ (fun l i hl => by
        show (resolveOne sq s.h (1 / s.h) s.fNumX s.fNumY
          (buildHash s).1 (buildHash s).2 l i).length = s.particles.length
        rw [resolveOne_length]; exact hl)
    (List.range s.particles.length) s.particles rfl

lemma advectParticles_length (sq : ℚ → ℚ) (dt : ℚ) (s : FluidSim) :
    (advectParticles sq dt s).particles.length = s.particles.length := by
  unfold advectParticles
  rw [List.length_map, separateParticles_length, List.length_map]

lemma calculateParticleDensity_particles (s : FluidSim) :
    (calculateParticleDensity s).particles = s.particles := rfl

lemma applyWavePaddle_particles (sinFn : ℚ → ℚ) (s : FluidSim) :
    (applyWavePaddle sinFn s).particles = s.particles := rfl

lemma snapshotGrid_particles (s : FluidSim) :
    (snapshotGrid s).particles = s.particles := rfl

lemma transferGridToParticles_length (fr : ℚ) (s : FluidSim) :
    (transferGridToParticles fr s).particles.length = s.particles.length := by
  show (s.particles.map _).length = s.particles.length
  rw [List.length_map]

/-! ### Claim theorems -/

/-- C9: for every `dt` (and every model of `Math.sin`/`Math.sqrt`), a call to
`integrate(dt)` leaves the number of particles unchanged: no phase of the
step sequence adds or removes a particle. -/
theorem particle_count_invariant (sinFn sq : ℚ → ℚ) (dt : ℚ) (s : FluidSim) :
    (integrate sinFn sq dt s).particles.length = s.particles.length := by
  unfold integrate
  rw [transferGridToParticles_length, solveIncompressibility_particles,
    snapshotGrid_particles, applyWavePaddle_particles,
    calculateParticleDensity_particles, transferParticlesToGrid_particles,
    advectParticles_length]

/-- C4: the grid-to-particle transfer sets each particle velocity component to
`flipRatio × FLIP + (1 − flipRatio) × PIC`, where PIC is the bilinear sample
of the current (post-solve) grid at the particle's position and FLIP is the
particle's prior velocity plus (current sample − snapshot sample); and
`integrate` invokes it with `flipRatio = 0.95` on the solved state. -/
theorem flip_pic_blend_formula (fr : ℚ) (s : FluidSim) (sinFn sq : ℚ → ℚ) (dt : ℚ) :
    ((transferGridToParticles fr s).particles = s.particles.map (fun p =>
      { x := p.x, y := p.y,
        u := fr * (p.u + (sampleGrid s.h p.x p.y s.u 0 (1/2) (s.fNumX + 1) s.fNumY -
              sampleGrid s.h p.x p.y s.du 0 (1/2) (s.fNumX + 1) s.fNumY)) +
          (1 - fr) * sampleGrid s.h p.x p.y s.u 0 (1/2) (s.fNumX + 1) s.fNumY,
        v := fr * (p.v + (sampleGrid s.h p.x p.y s.v (1/2) 0 s.fNumX (s.fNumY + 1) -
              sampleGrid s.h p.x p.y s.dv (1/2) 0 s.fNumX (s.fNumY + 1))) +
          (1 - fr) * sampleGrid s.h p.x p.y s.v (1/2) 0 s.fNumX (s.fNumY + 1) })) ∧
    integrate sinFn sq dt s = transferGridToParticles (19/20)
      (solveIncompressibility (snapshotGrid (applyWavePaddle sinFn
        (calculateParticleDensity (transferParticlesToGrid
          (advectParticles sq dt { s with totalTime := s.totalTime + dt })))))) := by
  constructor
  · show s.particles.map _ = s.particles.map _
    congr 1
    funext p
    simp only [Particle.mk.injEq, true_and]
    exact ⟨by ring, by ring⟩
  · rfl

/-- The wall clamp keeps a particle inside `[buffer, extent − buffer]` on both
axes, provided the domain is at least two buffers wide. -/
lemma clampParticle_mem (W H b : ℚ) (p : Particle)
    (hx : 2 * b ≤ W) (hy : 2 * b ≤ H) :
    b ≤ (clampParticle W H b p).x ∧ (clampParticle W H b p).x ≤ W - b ∧
    b ≤ (clampParticle W H b p).y ∧ (clampParticle W H b p).y ≤ H - b := by
  simp only [clampParticle]
  split_ifs <;> refine ⟨?_, ?_, ?_, ?_⟩ <;> linarith

/-- C6: after every completed `integrate(dt)`, every particle position lies in
`[buffer, domain − buffer]` on both axes (`buffer = 1.1 h`, domain
`fNumX h × fNumY h`, assuming the domain is at least two buffers wide); and no
phase after the wall clamp changes any particle position — the positions after
`integrate` are exactly the positions the advection phase produced. -/
theorem positions_within_walls (sinFn sq : ℚ → ℚ) (dt : ℚ) (s : FluidSim)
    (hx : 2 * (s.h * (11/10)) ≤ (s.fNumX : ℚ) * s.h)
    (hy : 2 * (s.h * (11/10)) ≤ (s.fNumY : ℚ) * s.h) :
    (∀ p ∈ (integrate sinFn sq dt s).particles,
      s.h * (11/10) ≤ p.x ∧ p.x ≤ (s.fNumX : ℚ) * s.h - s.h * (11/10) ∧
      s.h * (11/10) ≤ p.y ∧ p.y ≤ (s.fNumY : ℚ) * s.h - s.h * (11/10)) ∧
    (integrate sinFn sq dt s).particles.map (fun p => (p.x, p.y)) =
      (advectParticles sq dt { s with totalTime := s.totalTime + dt }).particles.map
        (fun p => (p.x, p.y)) := by
  have hAdv : ∀ p ∈ (advectParticles sq dt { s with totalTime := s.totalTime + dt }).particles,
      s.h * (11/10) ≤ p.x ∧ p.x ≤ (s.fNumX : ℚ) * s.h - s.h * (11/10) ∧
      s.h * (11/10) ≤ p.y ∧ p.y ≤ (s.fNumY : ℚ) * s.h - s.h * (11/10) := by
    intro p hp
    have hm : p ∈ (separateParticles sq _).particles.map
        (clampParticle ((s.fNumX : ℚ) * s.h) ((s.fNumY : ℚ) * s.h) (s.h * (11/10))) := hp
    rcases List.mem_map.mp hm with ⟨q, _, hq⟩
    subst hq
    exact clampParticle_mem _ _ _ q hx hy
  have hEq : (integrate sinFn sq dt s).particles =
      (advectParticles sq dt { s with totalTime := s.totalTime + dt }).particles.map
        (fun p =>
          let s7 := solveIncompressibility (snapshotGrid (applyWavePaddle sinFn
            (calculateParticleDensity (transferParticlesToGrid
              (advectParticles sq dt { s with totalTime := s.totalTime + dt })))))
          let uPIC := sampleGrid s7.h p.x p.y s7.u 0 (1/2) (s7.fNumX + 1) s7.fNumY
          let vPIC := sampleGrid s7.h p.x p.y s7.v (1/2) 0 s7.fNumX (s7.fNumY + 1)
          let uOld := sampleGrid s7.h p.x p.y s7.du 0 (1/2) (s7.fNumX + 1) s7.fNumY
          let vOld := sampleGrid s7.h p.x p.y s7.dv (1/2) 0 s7.fNumX (s7.fNumY + 1)
          { x := p.x, y := p.y,
            u := (p.u + (uPIC - uOld)) * (19/20) + uPIC * (1 - 19/20),
            v := (p.v + (vPIC - vOld)) * (19/20) + vPIC * (1 - 19/20) }) := by
    show (transferGridToParticles (19/20) _).particles = _
    rw [show ∀ t : FluidSim, (transferGridToParticles (19/20) t).particles =
        t.particles.map _ from fun t => rfl]
    rw [solveIncompressibility_particles, snapshotGrid_particles,
      applyWavePaddle_particles, calculateParticleDensity_particles,
      transferParticlesToGrid_particles]
  constructor
  · intro p hp
    rw [hEq] at hp
    rcases List.mem_map.mp hp with ⟨q, hq, hpq⟩
    subst hpq
    exact hAdv q hq
  · rw [hEq, List.map_map]
    rfl


/-! ### C2: solid faces are zero right after transfer-in -/

lemma enforceCell_keeps_zero_u (st : FluidSim) (ij : ℕ × ℕ) (k : ℤ)
    (h : st.u k = 0) : (enforceCell st ij).u k = 0 := by
  show (enforceCellUV st ij).1 k = 0
  simp only [enforceCellUV]
  split_ifs with hs
  · simp only [setQ]
    split_ifs <;> first | rfl | exact h
  · exact h

lemma enforceCell_keeps_zero_v (st : FluidSim) (ij : ℕ × ℕ) (k : ℤ)
    (h : st.v k = 0) : (enforceCell st ij).v k = 0 := by
  show (enforceCellUV st ij).2 k = 0
  simp only [enforceCellUV]
  split_ifs with hs
  · simp only [setQ]
    split_ifs <;> first | rfl | exact h
  · exact h

lemma enforceCell_solid_zeroes (st : FluidSim) (i j : ℕ)
    (hs : st.cellType ((i : ℤ) + (j : ℤ) * st.fNumX) = 2) :
    (enforceCell st (i, j)).u ((i : ℤ) + (j : ℤ) * ((st.fNumX : ℤ) + 1)) = 0 ∧
    (enforceCell st (i, j)).u ((i : ℤ) + 1 + (j : ℤ) * ((st.fNumX : ℤ) + 1)) = 0 ∧
    (enforceCell st (i, j)).v ((i : ℤ) + (j : ℤ) * (st.fNumX : ℤ)) = 0 ∧
    (enforceCell st (i, j)).v ((i : ℤ) + ((j : ℤ) + 1) * (st.fNumX : ℤ)) = 0 := by
  refine ⟨?_, ?_, ?_, ?_⟩ <;>
    first
      | (show (enforceCellUV st (i, j)).1 _ = 0
         simp only [enforceCellUV, if_pos hs, setQ]
         split_ifs <;> rfl)
      | (show (enforceCellUV st (i, j)).2 _ = 0
         simp only [enforceCellUV, if_pos hs, setQ]
         split_ifs <;> rfl)

lemma foldl_enforce_cellType (l : List (ℕ × ℕ)) (st : FluidSim) :
    (l.foldl enforceCell st).cellType = st.cellType :=
  foldl_induction (fun a => a.cellType = st.cellType) enforceCell
    (fun a b hp => show (enforceCell a b).cellType = st.cellType from hp) l st rfl

lemma foldl_enforce_fNumX (l : List (ℕ × ℕ)) (st : FluidSim) :
    (l.foldl enforceCell st).fNumX = st.fNumX :=
  foldl_induction (fun a => a.fNumX = st.fNumX) enforceCell
    (fun a b hp => show (enforceCell a b).fNumX = st.fNumX from hp) l st rfl

lemma splatAll_cellType (s : FluidSim) : (splatAll s).cellType = s.cellType :=
  foldl_induction (fun a => a.cellType = s.cellType) splatParticle
    (fun a b hp => show (splatParticle a b).cellType = s.cellType from hp)
    s.particles s rfl

lemma splatAll_fNumX (s : FluidSim) : (splatAll s).fNumX = s.fNumX :=
  foldl_induction (fun a => a.fNumX = s.fNumX) splatParticle
    (fun a b hp => show (splatParticle a b).fNumX = s.fNumX from hp)
    s.particles s rfl

lemma splatAll_fNumY (s : FluidSim) : (splatAll s).fNumY = s.fNumY :=
  foldl_induction (fun a => a.fNumY = s.fNumY) splatParticle
    (fun a b hp => show (splatParticle a b).fNumY = s.fNumY from hp)
    s.particles s rfl

/-- C2: immediately after the particle-to-grid transfer returns, every cell
classified solid has all four incident staggered face velocities equal to
exactly 0. -/
theorem solid_faces_zero_after_transfer (s : FluidSim) (i j : ℕ)
    (hi : i < s.fNumX) (hj : j < s.fNumY)
    (hsolid : s.cellType ((i : ℤ) + (j : ℤ) * s.fNumX) = 2) :
    (transferParticlesToGrid s).u ((i : ℤ) + (j : ℤ) * ((s.fNumX : ℤ) + 1)) = 0 ∧
    (transferParticlesToGrid s).u ((i : ℤ) + 1 + (j : ℤ) * ((s.fNumX : ℤ) + 1)) = 0 ∧
    (transferParticlesToGrid s).v ((i : ℤ) + (j : ℤ) * (s.fNumX : ℤ)) = 0 ∧
    (transferParticlesToGrid s).v ((i : ℤ) + ((j : ℤ) + 1) * (s.fNumX : ℤ)) = 0 := by
  have hct3 : (normalizeGrids (splatAll (clearGrids s))).cellType = s.cellType := by
    show (splatAll (clearGrids s)).cellType = s.cellType
    rw [splatAll_cellType]; rfl
  have hm3 : (normalizeGrids (splatAll (clearGrids s))).fNumX = s.fNumX := by
    show (splatAll (clearGrids s)).fNumX = s.fNumX
    rw [splatAll_fNumX]; rfl
  have hn3 : (normalizeGrids (splatAll (clearGrids s))).fNumY = s.fNumY := by
    show (splatAll (clearGrids s)).fNumY = s.fNumY
    rw [splatAll_fNumY]; rfl
  set s3 := normalizeGrids (splatAll (clearGrids s)) with hs3
  have htr : transferParticlesToGrid s = (cellPairs s.fNumX s.fNumY).foldl enforceCell s3 := by
    show enforceBoundaries s3 = _
    unfold enforceBoundaries
    rw [hm3, hn3]
  have hmem : (i, j) ∈ cellPairs s.fNumX s.fNumY := mem_cellPairs.mpr ⟨hi, hj⟩
  obtain ⟨l1, l2, hsplit⟩ := List.append_of_mem hmem
  rw [htr, hsplit, List.foldl_append, List.foldl_cons]
  set mid := l1.foldl enforceCell s3 with hmid
  have hctm : mid.cellType = s.cellType := by
    rw [hmid, foldl_enforce_cellType]; exact hct3
  have hmm : mid.fNumX = s.fNumX := by
    rw [hmid, foldl_enforce_fNumX]; exact hm3
  have hz : (enforceCell mid (i, j)).u ((i : ℤ) + (j : ℤ) * ((s.fNumX : ℤ) + 1)) = 0 ∧
      (enforceCell mid (i, j)).u ((i : ℤ) + 1 + (j : ℤ) * ((s.fNumX : ℤ) + 1)) = 0 ∧
      (enforceCell mid (i, j)).v ((i : ℤ) + (j : ℤ) * (s.fNumX : ℤ)) = 0 ∧
      (enforceCell mid (i, j)).v ((i : ℤ) + ((j : ℤ) + 1) * (s.fNumX : ℤ)) = 0 := by
    have := enforceCell_solid_zeroes mid i j (by rw [hctm, hmm]; exact hsolid)
    rwa [hmm] at this
  exact foldl_induction
    (fun a => a.u ((i : ℤ) + (j : ℤ) * ((s.fNumX : ℤ) + 1)) = 0 ∧
      a.u ((i : ℤ) + 1 + (j : ℤ) * ((s.fNumX : ℤ) + 1)) = 0 ∧
      a.v ((i : ℤ) + (j : ℤ) * (s.fNumX : ℤ)) = 0 ∧
      a.v ((i : ℤ) + ((j : ℤ) + 1) * (s.fNumX : ℤ)) = 0)
    enforceCell
    (fun a b hp => ⟨enforceCell_keeps_zero_u a b _ hp.1,
      enforceCell_keeps_zero_u a b _ hp.2.1,
      enforceCell_keeps_zero_v a b _ hp.2.2.1,
      enforceCell_keeps_zero_v a b _ hp.2.2.2⟩)
    l2 (enforceCell mid (i, j)) hz

/-- C2 witness: on a concrete 3×3 state the boundary cell (0, 0) is solid and
its four faces are zero after the transfer. -/
theorem solid_faces_zero_after_transfer_witness :
    (transferParticlesToGrid (demoSim 3 3 [])).u 0 = 0 ∧
    (transferParticlesToGrid (demoSim 3 3 [])).u 1 = 0 ∧
    (transferParticlesToGrid (demoSim 3 3 [])).v 0 = 0 ∧
    (transferParticlesToGrid (demoSim 3 3 [])).v 3 = 0 := by
  have := solid_faces_zero_after_transfer (demoSim 3 3 []) 0 0
    (by decide) (by decide) (by decide)
  norm_num at this
  exact this


/-! ### C10: the pressure solve never writes a face incident to a solid cell -/

lemma mem_interiorCells {m n : ℕ} {p : ℕ × ℕ} (h : p ∈ interiorCells m n) :
    1 ≤ p.1 ∧ p.1 + 2 ≤ m ∧ 1 ≤ p.2 ∧ p.2 + 2 ≤ n := by
  cases p with
  | mk a b =>
    simp only [interiorCells, List.mem_flatMap, List.mem_map, List.mem_range'_1,
      Prod.mk.injEq] at h
    obtain ⟨j, hj, i, hi, e1, e2⟩ := h
    subst e1; subst e2
    omega

set_option maxHeartbeats 1600000 in
lemma relaxCellUV_u_protected (st : FluidSim) (ij : ℕ × ℕ) (k : ℤ)
    (hA : st.cellType ((ij.1 : ℤ) + (ij.2 : ℤ) * st.fNumX) ≠ 2 →
      st.cellType ((ij.1 : ℤ) - 1 + (ij.2 : ℤ) * st.fNumX) ≠ 2 →
      k ≠ (ij.1 : ℤ) + (ij.2 : ℤ) * ((st.fNumX : ℤ) + 1))
    (hB : st.cellType ((ij.1 : ℤ) + (ij.2 : ℤ) * st.fNumX) ≠ 2 →
      st.cellType ((ij.1 : ℤ) + 1 + (ij.2 : ℤ) * st.fNumX) ≠ 2 →
      k ≠ (ij.1 : ℤ) + (ij.2 : ℤ) * ((st.fNumX : ℤ) + 1) + 1) :
    (relaxCellUV st ij).1 k = st.u k := by
  simp only [relaxCellUV]
  by_cases h1 : st.cellType ((ij.1 : ℤ) + (ij.2 : ℤ) * st.fNumX) = 2
  · rw [if_pos h1]
  · rw [if_neg h1]
    by_cases hL : st.cellType ((ij.1 : ℤ) - 1 + (ij.2 : ℤ) * st.fNumX) = 2 <;>
      by_cases hR : st.cellType ((ij.1 : ℤ) + 1 + (ij.2 : ℤ) * st.fNumX) = 2 <;>
        simp only [hL, hR, if_true, if_false, ite_true, ite_false, if_pos, if_neg,
          not_false_eq_true, ne_eq, not_true_eq_false] <;>
          split_ifs <;>
            simp_all [bump]

set_option maxHeartbeats 1600000 in
lemma relaxCellUV_v_protected (st : FluidSim) (ij : ℕ × ℕ) (k : ℤ)
    (hA : st.cellType ((ij.1 : ℤ) + (ij.2 : ℤ) * st.fNumX) ≠ 2 →
      st.cellType ((ij.1 : ℤ) + ((ij.2 : ℤ) - 1) * st.fNumX) ≠ 2 →
      k ≠ (ij.1 : ℤ) + (ij.2 : ℤ) * (st.fNumX : ℤ))
    (hB : st.cellType ((ij.1 : ℤ) + (ij.2 : ℤ) * st.fNumX) ≠ 2 →
      st.cellType ((ij.1 : ℤ) + ((ij.2 : ℤ) + 1) * st.fNumX) ≠ 2 →
      k ≠ (ij.1 : ℤ) + (ij.2 : ℤ) * (st.fNumX : ℤ) + st.fNumX) :
    (relaxCellUV st ij).2 k = st.v k := by
  simp only [relaxCellUV]
  by_cases h1 : st.cellType ((ij.1 : ℤ) + (ij.2 : ℤ) * st.fNumX) = 2
  · rw [if_pos h1]
  · rw [if_neg h1]
    by_cases hL : st.cellType ((ij.1 : ℤ) + ((ij.2 : ℤ) - 1) * st.fNumX) = 2 <;>
      by_cases hR : st.cellType ((ij.1 : ℤ) + ((ij.2 : ℤ) + 1) * st.fNumX) = 2 <;>
        simp only [hL, hR, if_true, if_false, ite_true, ite_false, if_pos, if_neg,
          not_false_eq_true, ne_eq, not_true_eq_false] <;>
          split_ifs <;>
            simp_all [bump]

set_option maxRecDepth 4000 in
/-- C10: `solveIncompressibility` never modifies a face velocity one of whose
two incident cells is classified solid: every `u` face `(fi, fj)` whose left
cell `(fi−1, fj)` or right cell `(fi, fj)` is solid, and every `v` face whose
lower or upper incident cell is solid, carries the same value after the 30
sweeps — in particular boundary faces zeroed by enforcement and the wave-paddle
values in the left-boundary face column (outer incident cell solid) survive
the whole solve. -/
theorem solve_preserves_solid_faces (s : FluidSim) :
    (∀ fi fj : ℤ, 0 ≤ fi → fi ≤ (s.fNumX : ℤ) →
      (s.cellType (fi - 1 + fj * s.fNumX) = 2 ∨ s.cellType (fi + fj * s.fNumX) = 2) →
      (solveIncompressibility s).u (fi + fj * ((s.fNumX : ℤ) + 1)) =
        s.u (fi + fj * ((s.fNumX : ℤ) + 1))) ∧
    (∀ fi fj : ℤ, 0 ≤ fi → fi < (s.fNumX : ℤ) →
      (s.cellType (fi + (fj - 1) * s.fNumX) = 2 ∨ s.cellType (fi + fj * s.fNumX) = 2) →
      (solveIncompressibility s).v (fi + fj * (s.fNumX : ℤ)) =
        s.v (fi + fj * (s.fNumX : ℤ))) := by
  constructor
  · intro fi fj h0 h1 hsol
    have hstep : ∀ st : FluidSim,
        st.cellType = s.cellType → st.fNumX = s.fNumX →
        ∀ ij ∈ interiorCells s.fNumX s.fNumY,
        (relaxCell st ij).u (fi + fj * ((s.fNumX : ℤ) + 1)) =
          st.u (fi + fj * ((s.fNumX : ℤ) + 1)) := by
      intro st hct hmx ij hij
      obtain ⟨hi1, hi2, hj1, hj2⟩ := mem_interiorCells hij
      show (relaxCellUV st ij).1 _ = _
      apply relaxCellUV_u_protected
      · rw [hct, hmx]
        intro hg hl heq
        obtain ⟨e1, e2⟩ := @flatIndex_inj ((s.fNumX : ℤ) + 1) fi (ij.1 : ℤ) fj (ij.2 : ℤ)
          (by omega) h0 (by omega) (by omega) (by omega) heq
        rcases hsol with hc | hc
        · exact hl (by rw [← e1, ← e2]; exact hc)
        · exact hg (by rw [← e1, ← e2]; exact hc)
      · rw [hct, hmx]
        intro hg hr heq
        rw [show (ij.1 : ℤ) + (ij.2 : ℤ) * ((s.fNumX : ℤ) + 1) + 1 =
          ((ij.1 : ℤ) + 1) + (ij.2 : ℤ) * ((s.fNumX : ℤ) + 1) from by ring] at heq
        obtain ⟨e1, e2⟩ := @flatIndex_inj ((s.fNumX : ℤ) + 1) fi ((ij.1 : ℤ) + 1) fj (ij.2 : ℤ)
          (by omega) h0 (by omega) (by omega) (by omega) heq
        rcases hsol with hc | hc
        · exact hg (by rw [show (ij.1 : ℤ) + (ij.2 : ℤ) * (s.fNumX : ℤ) =
            (fi - 1) + fj * (s.fNumX : ℤ) from by rw [e1, e2]; ring]; exact hc)
        · exact hr (by rw [show (ij.1 : ℤ) + 1 + (ij.2 : ℤ) * (s.fNumX : ℤ) =
            fi + fj * (s.fNumX : ℤ) from by rw [e1, e2]]; exact hc)
    have hsweep : ∀ st : FluidSim,
        st.u (fi + fj * ((s.fNumX : ℤ) + 1)) = s.u (fi + fj * ((s.fNumX : ℤ) + 1)) ∧
          st.cellType = s.cellType ∧ st.fNumX = s.fNumX ∧ st.fNumY = s.fNumY →
        (sweep st).u (fi + fj * ((s.fNumX : ℤ) + 1)) = s.u (fi + fj * ((s.fNumX : ℤ) + 1)) ∧
          (sweep st).cellType = s.cellType ∧ (sweep st).fNumX = s.fNumX ∧
          (sweep st).fNumY = s.fNumY := by
      intro st hP
      have hl : interiorCells st.fNumX st.fNumY = interiorCells s.fNumX s.fNumY := by
        rw [hP.2.2.1, hP.2.2.2]
      show ((interiorCells st.fNumX st.fNumY).foldl relaxCell st).u
          (fi + fj * ((s.fNumX : ℤ) + 1)) = s.u (fi + fj * ((s.fNumX : ℤ) + 1)) ∧
        ((interiorCells st.fNumX st.fNumY).foldl relaxCell st).cellType = s.cellType ∧
        ((interiorCells st.fNumX st.fNumY).foldl relaxCell st).fNumX = s.fNumX ∧
        ((interiorCells st.fNumX st.fNumY).foldl relaxCell st).fNumY = s.fNumY
      rw [hl]
      exact foldl_induction_mem
        (fun a => a.u (fi + fj * ((s.fNumX : ℤ) + 1)) = s.u (fi + fj * ((s.fNumX : ℤ) + 1)) ∧
          a.cellType = s.cellType ∧ a.fNumX = s.fNumX ∧ a.fNumY = s.fNumY)
        (interiorCells s.fNumX s.fNumY) relaxCell
        (fun a b hb hp => ⟨by rw [hstep a hp.2.1 hp.2.2.1 b hb]; exact hp.1,
          by exact hp.2.1, by exact hp.2.2.1, by exact hp.2.2.2⟩)
        st hP
    have hiter : ∀ n : ℕ,
        (sweep^[n] s).u (fi + fj * ((s.fNumX : ℤ) + 1)) =
          s.u (fi + fj * ((s.fNumX : ℤ) + 1)) ∧
        (sweep^[n] s).cellType = s.cellType ∧ (sweep^[n] s).fNumX = s.fNumX ∧
        (sweep^[n] s).fNumY = s.fNumY := by
      intro n
      induction n with
      | zero => exact ⟨rfl, rfl, rfl, rfl⟩
      | succ m ih => rw [Function.iterate_succ_apply']; exact hsweep _ ih
    have hfold : solveIncompressibility s = sweep^[30] s := by
      show (List.range 30).foldl (fun st _ => sweep st) s = _
      exact foldl_range_iterate sweep 30 s
    rw [hfold]
    exact (hiter 30).1
  · intro fi fj h0 h1 hsol
    have hstep : ∀ st : FluidSim,
        st.cellType = s.cellType → st.fNumX = s.fNumX →
        ∀ ij ∈ interiorCells s.fNumX s.fNumY,
        (relaxCell st ij).v (fi + fj * (s.fNumX : ℤ)) =
          st.v (fi + fj * (s.fNumX : ℤ)) := by
      intro st hct hmx ij hij
      obtain ⟨hi1, hi2, hj1, hj2⟩ := mem_interiorCells hij
      show (relaxCellUV st ij).2 _ = _
      apply relaxCellUV_v_protected
      · rw [hct, hmx]
        intro hg hb heq
        obtain ⟨e1, e2⟩ := @flatIndex_inj (s.fNumX : ℤ) fi (ij.1 : ℤ) fj (ij.2 : ℤ)
          (by omega) h0 h1 (by omega) (by omega) heq
        rcases hsol with hc | hc
        · exact hb (by rw [← e1, ← e2]; exact hc)
        · exact hg (by rw [← e1, ← e2]; exact hc)
      · rw [hct, hmx]
        intro hg ht heq
        rw [show (ij.1 : ℤ) + (ij.2 : ℤ) * (s.fNumX : ℤ) + (s.fNumX : ℤ) =
          (ij.1 : ℤ) + ((ij.2 : ℤ) + 1) * (s.fNumX : ℤ) from by ring] at heq
        obtain ⟨e1, e2⟩ := @flatIndex_inj (s.fNumX : ℤ) fi (ij.1 : ℤ) fj ((ij.2 : ℤ) + 1)
          (by omega) h0 h1 (by omega) (by omega) heq
        rcases hsol with hc | hc
        · exact hg (by rw [show (ij.1 : ℤ) + (ij.2 : ℤ) * (s.fNumX : ℤ) =
            fi + (fj - 1) * (s.fNumX : ℤ) from by rw [e1, e2]; ring]; exact hc)
        · exact ht (by rw [show (ij.1 : ℤ) + ((ij.2 : ℤ) + 1) * (s.fNumX : ℤ) =
            fi + fj * (s.fNumX : ℤ) from by rw [e1, e2]]; exact hc)
    have hsweep : ∀ st : FluidSim,
        st.v (fi + fj * (s.fNumX : ℤ)) = s.v (fi + fj * (s.fNumX : ℤ)) ∧
          st.cellType = s.cellType ∧ st.fNumX = s.fNumX ∧ st.fNumY = s.fNumY →
        (sweep st).v (fi + fj * (s.fNumX : ℤ)) = s.v (fi + fj * (s.fNumX : ℤ)) ∧
          (sweep st).cellType = s.cellType ∧ (sweep st).fNumX = s.fNumX ∧
          (sweep st).fNumY = s.fNumY := by
      intro st hP
      have hl : interiorCells st.fNumX st.fNumY = interiorCells s.fNumX s.fNumY := by
        rw [hP.2.2.1, hP.2.2.2]
      show ((interiorCells st.fNumX st.fNumY).foldl relaxCell st).v
          (fi + fj * (s.fNumX : ℤ)) = s.v (fi + fj * (s.fNumX : ℤ)) ∧
        ((interiorCells st.fNumX st.fNumY).foldl relaxCell st).cellType = s.cellType ∧
        ((interiorCells st.fNumX st.fNumY).foldl relaxCell st).fNumX = s.fNumX ∧
        ((interiorCells st.fNumX st.fNumY).foldl relaxCell st).fNumY = s.fNumY
      rw [hl]
      exact foldl_induction_mem
        (fun a => a.v (fi + fj * (s.fNumX : ℤ)) = s.v (fi + fj * (s.fNumX : ℤ)) ∧
          a.cellType = s.cellType ∧ a.fNumX = s.fNumX ∧ a.fNumY = s.fNumY)
        (interiorCells s.fNumX s.fNumY) relaxCell
        (fun a b hb hp => ⟨by rw [hstep a hp.2.1 hp.2.2.1 b hb]; exact hp.1,
          by exact hp.2.1, by exact hp.2.2.1, by exact hp.2.2.2⟩)
        st hP
    have hiter : ∀ n : ℕ,
        (sweep^[n] s).v (fi + fj * (s.fNumX : ℤ)) = s.v (fi + fj * (s.fNumX : ℤ)) ∧
        (sweep^[n] s).cellType = s.cellType ∧ (sweep^[n] s).fNumX = s.fNumX ∧
        (sweep^[n] s).fNumY = s.fNumY := by
      intro n
      induction n with
      | zero => exact ⟨rfl, rfl, rfl, rfl⟩
      | succ m ih => rw [Function.iterate_succ_apply']; exact hsweep _ ih
    have hfold : solveIncompressibility s = sweep^[30] s := by
      show (List.range 30).foldl (fun st _ => sweep st) s = _
      exact foldl_range_iterate sweep 30 s
    rw [hfold]
    exact (hiter 30).1

/-- C10 witness: on a concrete 3×3 ring state, the `u` face at `(1, 1)` (whose
left incident cell `(0, 1)` is solid) is untouched by the whole solve. -/
theorem solve_preserves_solid_faces_witness :
    (solveIncompressibility (demoSim 3 3 [])).u (1 + 1 * (((demoSim 3 3 []).fNumX : ℤ) + 1)) =
      (demoSim 3 3 []).u (1 + 1 * (((demoSim 3 3 []).fNumX : ℤ) + 1)) :=
  (solve_preserves_solid_faces (demoSim 3 3 [])).1 1 1 (by decide) (by decide)
    (Or.inl (by decide))


/-! ### C1: the pressure solve matches the spec wording -/

lemma targetDiv_ite_max (d : ℚ) :
    (if 5/2 < d then 1 * (d - 5/2) else 0) = max 0 (d - 5/2) * 1 := by
  rcases le_or_lt d (5/2) with h | h
  · rw [if_neg (not_lt.mpr h), max_eq_left (by linarith)]; ring
  · rw [if_pos h, max_eq_right (by linarith)]; ring

set_option maxHeartbeats 1600000 in
lemma relaxCellUV_eq_spec (s : FluidSim) (ij : ℕ × ℕ) :
    relaxCellUV s ij = relaxCellSpecUV s ij := by
  simp only [relaxCellUV, relaxCellSpecUV]
  by_cases h1 : s.cellType ((ij.1 : ℤ) + (ij.2 : ℤ) * s.fNumX) = 2
  · rw [if_pos h1, if_pos h1]
  · rw [if_neg h1, if_neg h1, targetDiv_ite_max]
    by_cases hL : s.cellType ((ij.1 : ℤ) - 1 + (ij.2 : ℤ) * s.fNumX) = 2 <;>
      by_cases hR : s.cellType ((ij.1 : ℤ) + 1 + (ij.2 : ℤ) * s.fNumX) = 2 <;>
        by_cases hB : s.cellType ((ij.1 : ℤ) + ((ij.2 : ℤ) - 1) * s.fNumX) = 2 <;>
          by_cases hT : s.cellType ((ij.1 : ℤ) + ((ij.2 : ℤ) + 1) * s.fNumX) = 2 <;>
            simp only [hL, hR, hB, hT, if_true, if_false, ite_true, ite_false,
              not_true_eq_false, not_false_eq_true, ne_eq] <;>
              norm_num

lemma relaxCell_eq_spec_fun : relaxCell = relaxCellSpec := by
  funext s ij
  show ({ s with u := (relaxCellUV s ij).1, v := (relaxCellUV s ij).2 } : FluidSim) = _
  rw [relaxCellUV_eq_spec]
  rfl

/-- C1: for every state, the source's `solveIncompressibility` computes
exactly what §4.4 of the spec describes — per visited interior non-solid
cell, divergence `(right − left) + (top − bottom)` minus
`max(0, density − restDensity) × correctionGain`, an epsilon skip, a
non-solid-neighbor count skip, and the single gated flux
`−(div × overRelaxation) / neighborCount` on the four faces — with the sweep
repeated exactly 30 times per call. -/
theorem solve_matches_spec (s : FluidSim) :
    solveIncompressibility s = solveIncompressibilitySpec s := by
  have hsw : sweep = sweepSpec := by
    funext st
    unfold sweep sweepSpec
    rw [relaxCell_eq_spec_fun]
  show (List.range 30).foldl (fun st _ => sweep st) s = sweepSpec^[30] s
  rw [foldl_range_iterate, hsw]


/-! ### C3: the two-particle separation scenario -/

set_option maxHeartbeats 1600000 in
lemma sep_buildHash_eval : buildHash sepScenario = (sepFH, sepNP) := by
  norm_num [buildHash, sepScenario, demoSim, sepPs0, hashCellOf, sepFH, sepNP,
    show List.range 2 = [0, 1] from rfl]
  simp [setI]

set_option maxHeartbeats 1600000 in
lemma sep_resolve0_eval (sq : ℚ → ℚ) (hsq : sq (1/4) = 1/2) :
    resolveOne sq 1 1 4 4 sepFH sepNP sepPs0 0 = sepPs1 := by
  norm_num [resolveOne, sepPs0, sepPs1, walkChain, sepFH, sepNP, setI, hsq]

set_option maxHeartbeats 1600000 in
lemma sep_resolve1_eval (sq : ℚ → ℚ) :
    resolveOne sq 1 1 4 4 sepFH sepNP sepPs1 1 = sepPs1 := by
  norm_num [resolveOne, sepPs1, walkChain, sepFH, sepNP, setI]

set_option maxHeartbeats 1600000 in
/-- C3: two particles at `(0, 0)` and `(0, r/2)` with separation radius
`r = h = 1`: one separation pass moves them apart symmetrically along the
y-axis by `(r − r/2) × 0.5` each, ending at `(0, −r/4)` and `(0, 3r/4)`, and
applies no further correction to the pair (the second encounter sees them at
distance exactly `r`, which fails the strict radius test).  The hypothesis
pins the one square root the scenario evaluates, `√(1/4) = 1/2`. -/
theorem separation_two_particles (sq : ℚ → ℚ) (hsq : sq (1/4) = 1/2) :
    (separateParticles sq sepScenario).particles =
      [⟨0, -(1/4), 0, 0⟩, ⟨0, 3/4, 0, 0⟩] := by
  show (List.range sepScenario.particles.length).foldl
      (fun ps i => resolveOne sq sepScenario.h (1 / sepScenario.h) sepScenario.fNumX
        sepScenario.fNumY (buildHash sepScenario).1 (buildHash sepScenario).2 ps i)
      sepScenario.particles = [⟨0, -(1/4), 0, 0⟩, ⟨0, 3/4, 0, 0⟩]
  simp only [sep_buildHash_eval, show sepScenario.h = 1 from rfl,
    show sepScenario.fNumX = 4 from rfl, show sepScenario.fNumY = 4 from rfl,
    show sepScenario.particles = sepPs0 from rfl,
    show sepPs0.length = 2 from rfl, one_div_one]
  rw [show List.range 2 = [0, 1] from rfl, List.foldl_cons, List.foldl_cons, List.foldl_nil]
  show resolveOne sq 1 1 4 4 sepFH sepNP (resolveOne sq 1 1 4 4 sepFH sepNP sepPs0 0) 1 =
    [⟨0, -(1/4), 0, 0⟩, ⟨0, 3/4, 0, 0⟩]
  rw [sep_resolve0_eval sq hsq, sep_resolve1_eval sq]
  rfl

/-- C3 witness: the scenario instantiated with a concrete square-root
function. -/
theorem separation_two_particles_witness :
    (separateParticles (fun _ => 1/2) sepScenario).particles =
      [⟨0, -(1/4), 0, 0⟩, ⟨0, 3/4, 0, 0⟩] :=
  separation_two_particles (fun _ => 1/2) rfl


/-! ### C8: zero-weight faces are skipped by normalization -/

lemma bump_pair_inv (g w : ℤ → ℚ) (val q : ℚ) (a : ℤ) (hq : 0 ≤ q)
    (hinv : ∀ k, 0 ≤ w k ∧ (w k = 0 → g k = 0)) :
    ∀ k, 0 ≤ (bump w a q) k ∧ ((bump w a q) k = 0 → (bump g a (val * q)) k = 0) := by
  intro k
  unfold bump
  split_ifs with h
  · refine ⟨by have := (hinv k).1; linarith, fun h0 => ?_⟩
    have hw0 : w k = 0 := by have := (hinv k).1; linarith
    have hq0 : q = 0 := by have := (hinv k).1; linarith
    rw [(hinv k).2 hw0, hq0, mul_zero, add_zero]
  · exact hinv k

lemma floor_frac_nonneg (gx : ℚ) : 0 ≤ gx - (⌊gx⌋ : ℚ) :=
  sub_nonneg.mpr (Int.floor_le gx)

lemma floor_frac_le_one (gx : ℚ) : gx - (⌊gx⌋ : ℚ) ≤ 1 := by
  have := Int.lt_floor_add_one gx
  linarith

lemma splatToGrid_inv (h x y val : ℚ) (grid weight : ℤ → ℚ) (ox oy : ℚ)
    (cols rows : ℕ)
    (hinv : ∀ k, 0 ≤ weight k ∧ (weight k = 0 → grid k = 0)) :
    ∀ k, 0 ≤ (splatToGrid h x y val grid weight ox oy cols rows).2 k ∧
      ((splatToGrid h x y val grid weight ox oy cols rows).2 k = 0 →
        (splatToGrid h x y val grid weight ox oy cols rows).1 k = 0) := by
  have hx0 := floor_frac_nonneg (gridCoord h x ox cols)
  have hx1 := floor_frac_le_one (gridCoord h x ox cols)
  have hy0 := floor_frac_nonneg (gridCoord h y oy rows)
  have hy1 := floor_frac_le_one (gridCoord h y oy rows)
  simp only [splatToGrid]
  exact bump_pair_inv _ _ val _ _ (by nlinarith)
    (bump_pair_inv _ _ val _ _ (by nlinarith)
      (bump_pair_inv _ _ val _ _ (by nlinarith)
        (bump_pair_inv _ _ val _ _ (by nlinarith) hinv)))

lemma splatAll_weight_inv (s : FluidSim) :
    ∀ k, (0 ≤ (splatAll (clearGrids s)).uWeight k ∧
        ((splatAll (clearGrids s)).uWeight k = 0 → (splatAll (clearGrids s)).u k = 0)) ∧
      (0 ≤ (splatAll (clearGrids s)).vWeight k ∧
        ((splatAll (clearGrids s)).vWeight k = 0 → (splatAll (clearGrids s)).v k = 0)) := by
  have main := foldl_induction
    (fun a => (∀ k, 0 ≤ a.uWeight k ∧ (a.uWeight k = 0 → a.u k = 0)) ∧
      (∀ k, 0 ≤ a.vWeight k ∧ (a.vWeight k = 0 → a.v k = 0)))
    splatParticle
    (fun a p hp => ⟨splatToGrid_inv a.h p.x p.y p.u a.u a.uWeight 0 (1/2)
        (a.fNumX + 1) a.fNumY hp.1,
      splatToGrid_inv a.h p.x p.y p.v a.v a.vWeight (1/2) 0
        a.fNumX (a.fNumY + 1) hp.2⟩)
    (clearGrids s).particles (clearGrids s)
    ⟨fun k => ⟨le_refl 0, fun _ => rfl⟩, fun k => ⟨le_refl 0, fun _ => rfl⟩⟩
  exact fun k => ⟨main.1 k, main.2 k⟩

/-- C8: during weight normalization in the particle-to-grid transfer, a face
whose accumulated weight is zero is skipped — its value is left unchanged by
the normalization and that value is exactly zero — so the division only ever
runs on strictly positive weights. -/
theorem normalize_skips_zero_weight (s : FluidSim) (k : ℤ) :
    ((splatAll (clearGrids s)).uWeight k = 0 →
      (normalizeGrids (splatAll (clearGrids s))).u k = (splatAll (clearGrids s)).u k ∧
      (normalizeGrids (splatAll (clearGrids s))).u k = 0) ∧
    ((splatAll (clearGrids s)).vWeight k = 0 →
      (normalizeGrids (splatAll (clearGrids s))).v k = (splatAll (clearGrids s)).v k ∧
      (normalizeGrids (splatAll (clearGrids s))).v k = 0) := by
  have hinv := splatAll_weight_inv s
  constructor
  · intro hw
    have hskip : (normalizeGrids (splatAll (clearGrids s))).u k =
        (splatAll (clearGrids s)).u k := by
      show (if 0 < (splatAll (clearGrids s)).uWeight k then _ else _) = _
      rw [hw, if_neg (lt_irrefl 0)]
    exact ⟨hskip, by rw [hskip]; exact ((hinv k).1).2 hw⟩
  · intro hw
    have hskip : (normalizeGrids (splatAll (clearGrids s))).v k =
        (splatAll (clearGrids s)).v k := by
      show (if 0 < (splatAll (clearGrids s)).vWeight k then _ else _) = _
      rw [hw, if_neg (lt_irrefl 0)]
    exact ⟨hskip, by rw [hskip]; exact ((hinv k).2).2 hw⟩

/-- C8 witness: with no particles every accumulated weight is zero, and face 0
keeps its exact zero value through normalization. -/
theorem normalize_skips_zero_weight_witness :
    (normalizeGrids (splatAll (clearGrids (demoSim 2 2 [])))).u 0 =
      (splatAll (clearGrids (demoSim 2 2 []))).u 0 ∧
    (normalizeGrids (splatAll (clearGrids (demoSim 2 2 [])))).u 0 = 0 :=
  (normalize_skips_zero_weight (demoSim 2 2 []) 0).1 rfl


/-! ### C7: the constructor never validates its inputs -/

/-- C7 counterexample: `construct(0, 5, 1)` has a non-positive width, yet it
completes without failure (the computed grid is 1 × 6, every typed-array
length is non-negative, and the seeding loop runs zero iterations), refuting
"for non-positive inputs it fails". -/
theorem construct_zero_width_succeeds :
    (construct (fun _ => 0) 0 5 1).isSome = true := by
  norm_num [construct]

/-- C7 (amended): for all positive `width`, `height` and `cellSpacing` the
constructor allocates the grid and seeds particles without failure; the
"fails on non-positive dimensions" half of the claim is false (see the
counterexample), as the constructor performs no input validation at all. -/
theorem construct_positive_succeeds (rand : ℕ → ℚ) (w hh sp : ℚ)
    (hw : 0 < w) (hhh : 0 < hh) (hs : 0 < sp) :
    (construct rand w hh sp).isSome = true := by
  have h1 : (0 : ℤ) ≤ ⌊w / sp⌋ := Int.floor_nonneg.mpr (le_of_lt (div_pos hw hs))
  have h2 : (0 : ℤ) ≤ ⌊hh / sp⌋ := Int.floor_nonneg.mpr (le_of_lt (div_pos hhh hs))
  unfold construct
  rw [if_neg]
  · rfl
  · push_neg
    refine ⟨?_, ?_, ?_⟩ <;> exact mul_nonneg (by linarith) (by linarith)

/-- C7 witness for the amended claim: a concrete positive construction
succeeds. -/
theorem construct_positive_succeeds_witness :
    (construct (fun _ => 0) 2 2 1).isSome = true :=
  construct_positive_succeeds (fun _ => 0) 2 2 1 (by norm_num) (by norm_num) (by norm_num)


/-! ### C5: splat followed by sample is the identity on uniform fields -/

lemma bump_mul (g w : ℤ → ℚ) (c q : ℚ) (a : ℤ)
    (hinv : ∀ k, g k = c * w k) :
    ∀ k, (bump g a (c * q)) k = c * (bump w a q) k := by
  intro k
  unfold bump
  split_ifs with h
  · rw [hinv k]; ring
  · exact hinv k

lemma splatToGrid_uniform (h x y c : ℚ) (grid weight : ℤ → ℚ) (ox oy : ℚ)
    (cols rows : ℕ) (hinv : ∀ k, grid k = c * weight k) :
    ∀ k, (splatToGrid h x y c grid weight ox oy cols rows).1 k =
      c * (splatToGrid h x y c grid weight ox oy cols rows).2 k := by
  simp only [splatToGrid]
  exact bump_mul _ _ c _ _ (bump_mul _ _ c _ _ (bump_mul _ _ c _ _
    (bump_mul _ _ c _ _ hinv)))

lemma splatAll_uniform (s : FluidSim) (c : ℚ) (hall : ∀ p ∈ s.particles, p.u = c) :
    ∀ k, (splatAll (clearGrids s)).u k = c * (splatAll (clearGrids s)).uWeight k := by
  refine foldl_induction_mem (fun a => ∀ k, a.u k = c * a.uWeight k)
    (clearGrids s).particles splatParticle
    (fun a p hp hPa => ?_) (clearGrids s) (fun k => by show (0 : ℚ) = c * 0; ring)
  have hpu : p.u = c := hall p hp
  show ∀ k, (splatToGrid a.h p.x p.y p.u a.u a.uWeight 0 (1/2) (a.fNumX + 1) a.fNumY).1 k =
    c * (splatToGrid a.h p.x p.y p.u a.u a.uWeight 0 (1/2) (a.fNumX + 1) a.fNumY).2 k
  rw [hpu]
  exact splatToGrid_uniform a.h p.x p.y c a.u a.uWeight 0 (1/2) (a.fNumX + 1) a.fNumY hPa

lemma enforceBoundaries_u_frame (s3 : FluidSim) (fi fj : ℤ)
    (h0 : 0 ≤ fi) (h1 : fi ≤ (s3.fNumX : ℤ))
    (hA : s3.cellType (fi + fj * s3.fNumX) ≠ 2)
    (hB : s3.cellType (fi - 1 + fj * s3.fNumX) ≠ 2) :
    (enforceBoundaries s3).u (fi + fj * ((s3.fNumX : ℤ) + 1)) =
      s3.u (fi + fj * ((s3.fNumX : ℤ) + 1)) := by
  unfold enforceBoundaries
  refine (foldl_induction_mem
    (fun a => a.u (fi + fj * ((s3.fNumX : ℤ) + 1)) =
        s3.u (fi + fj * ((s3.fNumX : ℤ) + 1)) ∧
      a.cellType = s3.cellType ∧ a.fNumX = s3.fNumX)
    (cellPairs s3.fNumX s3.fNumY) enforceCell
    (fun a b hb hp => ⟨?_, by exact hp.2.1, by exact hp.2.2⟩)
    s3 ⟨rfl, rfl, rfl⟩).1
  obtain ⟨hbm, hbn⟩ := mem_cellPairs.mp hb
  show (enforceCellUV a b).1 _ = _
  simp only [enforceCellUV, hp.2.1, hp.2.2]
  split_ifs with hsolid
  · have hk1 : fi + fj * ((s3.fNumX : ℤ) + 1) ≠
        (b.1 : ℤ) + (b.2 : ℤ) * ((s3.fNumX : ℤ) + 1) := by
      intro heq
      obtain ⟨e1, e2⟩ := @flatIndex_inj ((s3.fNumX : ℤ) + 1) fi (b.1 : ℤ) fj (b.2 : ℤ)
        (by omega) h0 (by omega) (by omega) (by omega) heq
      exact hA (by rw [e1, e2]; exact hsolid)
    have hk2 : fi + fj * ((s3.fNumX : ℤ) + 1) ≠
        (b.1 : ℤ) + 1 + (b.2 : ℤ) * ((s3.fNumX : ℤ) + 1) := by
      intro heq
      obtain ⟨e1, e2⟩ := @flatIndex_inj ((s3.fNumX : ℤ) + 1) fi ((b.1 : ℤ) + 1) fj (b.2 : ℤ)
        (by omega) h0 (by omega) (by omega) (by omega) heq
      apply hB
      rw [show fi - 1 + fj * (s3.fNumX : ℤ) = (b.1 : ℤ) + (b.2 : ℤ) * (s3.fNumX : ℤ) from by
        rw [e1, e2]; ring]
      exact hsolid
    simp only [setQ, if_neg hk2, if_neg hk1]
    exact hp.1
  · exact hp.1

set_option maxHeartbeats 800000 in
/-- C5: if every particle carries the same `u`-velocity `c`, then after the
full particle-to-grid transfer, sampling the `u` grid bilinearly at any point
whose four stencil faces all received positive splat weight and are not
incident to any solid cell (so boundary enforcement did not zero them)
returns exactly `c`: splat followed by sample is the identity on spatially
uniform fields. -/
theorem splat_sample_uniform_identity (s : FluidSim) (c x y : ℚ)
    (hm : 1 ≤ s.fNumX)
    (hall : ∀ p ∈ s.particles, p.u = c)
    (hw00 : 0 < (splatAll (clearGrids s)).uWeight (uBase s x y))
    (hw10 : 0 < (splatAll (clearGrids s)).uWeight (uBase s x y + 1))
    (hw01 : 0 < (splatAll (clearGrids s)).uWeight (uBase s x y + ((s.fNumX + 1 : ℕ) : ℤ)))
    (hw11 : 0 < (splatAll (clearGrids s)).uWeight (uBase s x y + ((s.fNumX + 1 : ℕ) : ℤ) + 1))
    (hc00 : s.cellType (uIx s x + uIy s y * s.fNumX) ≠ 2)
    (hcm0 : s.cellType (uIx s x - 1 + uIy s y * s.fNumX) ≠ 2)
    (hc10 : s.cellType (uIx s x + 1 + uIy s y * s.fNumX) ≠ 2)
    (hc01 : s.cellType (uIx s x + (uIy s y + 1) * s.fNumX) ≠ 2)
    (hcm1 : s.cellType (uIx s x - 1 + (uIy s y + 1) * s.fNumX) ≠ 2)
    (hc11 : s.cellType (uIx s x + 1 + (uIy s y + 1) * s.fNumX) ≠ 2) :
    sampleGrid s.h x y (transferParticlesToGrid s).u 0 (1/2) (s.fNumX + 1) s.fNumY = c := by
  have huni := splatAll_uniform s c hall
  have hnorm : ∀ t : ℤ, 0 < (splatAll (clearGrids s)).uWeight t →
      (normalizeGrids (splatAll (clearGrids s))).u t = c := by
    intro t ht
    show (if 0 < (splatAll (clearGrids s)).uWeight t then
        (splatAll (clearGrids s)).u t / (splatAll (clearGrids s)).uWeight t
      else (splatAll (clearGrids s)).u t) = c
    rw [if_pos ht, huni t, mul_div_assoc, div_self (ne_of_gt ht), mul_one]
  have hct : (normalizeGrids (splatAll (clearGrids s))).cellType = s.cellType := by
    show (splatAll (clearGrids s)).cellType = s.cellType
    rw [splatAll_cellType]; rfl
  have hmx : (normalizeGrids (splatAll (clearGrids s))).fNumX = s.fNumX := by
    show (splatAll (clearGrids s)).fNumX = s.fNumX
    rw [splatAll_fNumX]; rfl
  have hone : (1 : ℚ) ≤ (s.fNumX : ℚ) := by exact_mod_cast hm
  have hix0 : 0 ≤ uIx s x := Int.floor_nonneg.mpr (le_max_left _ _)
  have hix1 : uIx s x ≤ (s.fNumX : ℤ) - 1 := by
    have hb : (0 : ℚ) ≤ ((s.fNumX + 1 : ℕ) : ℚ) - 2 := by push_cast; linarith
    have hle : gridCoord s.h x 0 (s.fNumX + 1) ≤ ((s.fNumX + 1 : ℕ) : ℚ) - 2 :=
      max_le hb (min_le_right _ _)
    have hcast : ((s.fNumX + 1 : ℕ) : ℚ) - 2 = (((s.fNumX : ℤ) - 1 : ℤ) : ℚ) := by
      push_cast; ring
    calc uIx s x ≤ ⌊((s.fNumX + 1 : ℕ) : ℚ) - 2⌋ := Int.floor_le_floor hle
      _ = (s.fNumX : ℤ) - 1 := by rw [hcast, Int.floor_intCast]
  have e1 : uBase s x y = uIx s x + uIy s y * ((s.fNumX : ℤ) + 1) := by
    unfold uBase; push_cast; ring
  have e2 : uBase s x y + 1 = (uIx s x + 1) + uIy s y * ((s.fNumX : ℤ) + 1) := by
    rw [e1]; ring
  have e3 : uBase s x y + ((s.fNumX + 1 : ℕ) : ℤ) =
      uIx s x + (uIy s y + 1) * ((s.fNumX : ℤ) + 1) := by
    unfold uBase; push_cast; ring
  have e4 : uBase s x y + ((s.fNumX + 1 : ℕ) : ℤ) + 1 =
      (uIx s x + 1) + (uIy s y + 1) * ((s.fNumX : ℤ) + 1) := by
    unfold uBase; push_cast; ring
  have frame : ∀ fi fj : ℤ, 0 ≤ fi → fi ≤ (s.fNumX : ℤ) →
      s.cellType (fi + fj * s.fNumX) ≠ 2 → s.cellType (fi - 1 + fj * s.fNumX) ≠ 2 →
      (transferParticlesToGrid s).u (fi + fj * ((s.fNumX : ℤ) + 1)) =
        (normalizeGrids (splatAll (clearGrids s))).u (fi + fj * ((s.fNumX : ℤ) + 1)) := by
    intro fi fj hf0 hf1 hfA hfB
    have := enforceBoundaries_u_frame (normalizeGrids (splatAll (clearGrids s))) fi fj
      hf0 (by rw [hmx]; exact hf1)
      (by rw [hct, hmx]; exact hfA) (by rw [hct, hmx]; exact hfB)
    rw [hmx] at this
    exact this
  have v00 : (transferParticlesToGrid s).u (uBase s x y) = c := by
    rw [e1, frame (uIx s x) (uIy s y) hix0 (by omega) hc00 hcm0, ← e1]
    exact hnorm _ hw00
  have v10 : (transferParticlesToGrid s).u (uBase s x y + 1) = c := by
    rw [e2, frame (uIx s x + 1) (uIy s y) (by omega) (by omega)
      hc10 (by rw [show uIx s x + 1 - 1 + uIy s y * (s.fNumX : ℤ) =
        uIx s x + uIy s y * (s.fNumX : ℤ) from by ring]; exact hc00), ← e2]
    exact hnorm _ hw10
  have v01 : (transferParticlesToGrid s).u (uBase s x y + ((s.fNumX + 1 : ℕ) : ℤ)) = c := by
    rw [e3, frame (uIx s x) (uIy s y + 1) hix0 (by omega) hc01 hcm1, ← e3]
    exact hnorm _ hw01
  have v11 : (transferParticlesToGrid s).u (uBase s x y + ((s.fNumX + 1 : ℕ) : ℤ) + 1) = c := by
    rw [e4, frame (uIx s x + 1) (uIy s y + 1) (by omega) (by omega)
      hc11 (by rw [show uIx s x + 1 - 1 + (uIy s y + 1) * (s.fNumX : ℤ) =
        uIx s x + (uIy s y + 1) * (s.fNumX : ℤ) from by ring]; exact hc01), ← e4]
    exact hnorm _ hw11
  simp only [sampleGrid]
  simp only [uBase, uIx, uIy] at v00 v10 v01 v11
  rw [v00, v10, v01, v11]
  ring


set_option maxHeartbeats 1600000 in
/-- C5 witness: a single particle with uniform velocity 3 at `(5/2, 7/4)` on a
5 × 4 ring grid; all four stencil faces of that point get positive weight and
sit between interior cells, and the sample returns exactly 3. -/
theorem splat_sample_uniform_identity_witness :
    sampleGrid uniSim.h (5/2) (7/4) (transferParticlesToGrid uniSim).u 0 (1/2)
      (uniSim.fNumX + 1) uniSim.fNumY = 3 :=
  splat_sample_uniform_identity uniSim 3 (5/2) (7/4)
    (by norm_num [uniSim, demoSim])
    (fun p hp => by rw [List.eq_of_mem_singleton hp])
    (by norm_num [uBase, uIx, uIy, uniSim, demoSim, gridCoord, splatAll, clearGrids,
      splatParticle, splatToGrid, bump])
    (by norm_num [uBase, uIx, uIy, uniSim, demoSim, gridCoord, splatAll, clearGrids,
      splatParticle, splatToGrid, bump])
    (by norm_num [uBase, uIx, uIy, uniSim, demoSim, gridCoord, splatAll, clearGrids,
      splatParticle, splatToGrid, bump])
    (by norm_num [uBase, uIx, uIy, uniSim, demoSim, gridCoord, splatAll, clearGrids,
      splatParticle, splatToGrid, bump])
    (by norm_num [uniSim, demoSim, ringCellType, uIx, uIy, gridCoord])
    (by norm_num [uniSim, demoSim, ringCellType, uIx, uIy, gridCoord])
    (by norm_num [uniSim, demoSim, ringCellType, uIx, uIy, gridCoord])
    (by norm_num [uniSim, demoSim, ringCellType, uIx, uIy, gridCoord])
    (by norm_num [uniSim, demoSim, ringCellType, uIx, uIy, gridCoord])
    (by norm_num [uniSim, demoSim, ringCellType, uIx, uIy, gridCoord])


/-- C6 witness: one particle on a 3×3 grid with `h = 1` (buffer `1.1`,
domain `3 × 3`), integrated for one step with zero forcing models. -/
theorem positions_within_walls_witness :
    (∀ p ∈ (integrate (fun _ => 0) (fun _ => 0) 1 (demoSim 3 3 [⟨10, -5, 0, 0⟩])).particles,
      (demoSim 3 3 [⟨10, -5, 0, 0⟩]).h * (11/10) ≤ p.x ∧
      p.x ≤ ((demoSim 3 3 [⟨10, -5, 0, 0⟩]).fNumX : ℚ) * (demoSim 3 3 [⟨10, -5, 0, 0⟩]).h -
        (demoSim 3 3 [⟨10, -5, 0, 0⟩]).h * (11/10) ∧
      (demoSim 3 3 [⟨10, -5, 0, 0⟩]).h * (11/10) ≤ p.y ∧
      p.y ≤ ((demoSim 3 3 [⟨10, -5, 0, 0⟩]).fNumY : ℚ) * (demoSim 3 3 [⟨10, -5, 0, 0⟩]).h -
        (demoSim 3 3 [⟨10, -5, 0, 0⟩]).h * (11/10)) ∧
    (integrate (fun _ => 0) (fun _ => 0) 1 (demoSim 3 3 [⟨10, -5, 0, 0⟩])).particles.map
        (fun p => (p.x, p.y)) =
      (advectParticles (fun _ => 0) 1
        { demoSim 3 3 [⟨10, -5, 0, 0⟩] with
          totalTime := (demoSim 3 3 [⟨10, -5, 0, 0⟩]).totalTime + 1 }).particles.map
        (fun p => (p.x, p.y)) :=
  positions_within_walls (fun _ => 0) (fun _ => 0) 1 (demoSim 3 3 [⟨10, -5, 0, 0⟩])
    (by norm_num [demoSim]) (by norm_num [demoSim])

end WaterSim
